import Mathlib

/-!
# Verification of the todoist-mcp server against its specification

Shallow embedding of the orchestration layer of the todoist-mcp repository:
the Zod validation schemas (`src/tools/schemas.ts`), the HTTP error
classifier (`src/api/client.ts`), the operation handlers
(`src/tools/create-task.ts`, `list-tasks.ts`, `search-tasks.ts`,
`update-task.ts`) and the dispatch shell (`src/index.ts`).

Remote I/O is modelled by explicit parameters: a handler receives the data a
successful fetch would return (or an oracle mapping a request payload to the
remote outcome) and returns, besides the result envelope, the list of
outbound API calls it performed, so that "no network call is made" is the
statement that this list is empty.

JavaScript truthiness on optional strings (`if (params.description) ...`)
is modelled by `truthyStr`; `a || b` on strings by `jsOr`.  JS numbers
arriving through JSON are modelled as rationals `ℚ`, which is enough to
express the integer/range checks Zod performs.
-/

namespace TodoistMcp

/-- JS truthiness of an optional string: `undefined`, `null` and `""` are falsy. -/
def truthyStr : Option String → Bool
  | none => false
  | some s => !(s = "")

/-- JS truthiness of a (non-optional) string: `""` is falsy. -/
def truthyS (s : String) : Bool := !(s = "")

/-- JS `a || b` for an optional string `a` (empty string falls through). -/
def jsOr (a : Option String) (b : String) : String :=
  match a with
  | some s => if s = "" then b else s
  | none => b

/-- `List.isPrefixOf`-based occurrence check: does `pat` occur contiguously in `l`?
Model of JavaScript `String.prototype.includes` at the character-list level. -/
def containsSub (pat : List Char) : List Char → Bool
  | [] => pat.isEmpty
  | c :: rest => pat.isPrefixOf (c :: rest) || containsSub pat rest

/-- Model of JavaScript `s.includes(pat)`. -/
def strIncludes (s pat : String) : Bool := containsSub pat.data s.data

/-- Model of JavaScript `s.toLowerCase()` (ASCII case folding):
`s.map Char.toLower`, written on the character list so it computes by
structural recursion. -/
def toLowerCase (s : String) : String := ⟨s.data.map Char.toLower⟩

/-! ## Data model (`src/types/todoist.ts`) -/

/-- `TodoistDue` from `src/types/todoist.ts`. -/
structure TodoistDue where
  date : String
  string : String
  is_recurring : Bool := false
  datetime : Option String := none
  timezone : Option String := none
deriving Repr, DecidableEq

/-- `TodoistTask` from `src/types/todoist.ts`.  `null`-able fields are `Option`s. -/
structure TodoistTask where
  id : String
  project_id : String := ""
  section_id : Option String := none
  content : String
  description : String := ""
  is_completed : Bool := false
  labels : List String := []
  parent_id : Option String := none
  order : Nat := 0
  priority : Nat := 1
  due : Option TodoistDue := none
  url : String := ""
  comment_count : Nat := 0
  created_at : String := ""
  creator_id : String := ""
  assignee_id : Option String := none
  assigner_id : Option String := none
deriving Repr, DecidableEq

/-- `CreateTaskParams` from `src/types/todoist.ts` (the outbound create payload);
fields the handler never sets are omitted from the model. -/
structure CreateTaskParams where
  content : String
  description : Option String := none
  project_id : Option String := none
  section_id : Option String := none
  parent_id : Option String := none
  labels : Option (List String) := none
  priority : Option Nat := none
  due_string : Option String := none
deriving Repr, DecidableEq

/-- `UpdateTaskParams` from `src/types/todoist.ts` (the outbound partial-update payload). -/
structure UpdateTaskParams where
  content : Option String := none
  description : Option String := none
  labels : Option (List String) := none
  priority : Option Nat := none
  due_string : Option String := none
deriving Repr, DecidableEq

/-- Query parameters sent by `listTasks` to `GET /tasks`. -/
structure TasksQueryParams where
  project_id : Option String := none
  section_id : Option String := none
  label : Option String := none
  filter : Option String := none
deriving Repr, DecidableEq

/-! ## Error classification (`src/api/client.ts` / `src/api/errors.ts`) -/

/-- The data a failed HTTP response may carry (`data?.error`, `data?.message`). -/
structure HttpResponseData where
  error : Option String := none
  message : Option String := none
deriving Repr, DecidableEq

/-- A received HTTP error response. -/
structure HttpResponse where
  status : Nat
  data : HttpResponseData := {}
deriving Repr, DecidableEq

/-- Model of the `AxiosError` the interceptor sees: an optional response,
whether a request object exists (`error.request`), and the error message. -/
structure AxiosErrorModel where
  response : Option HttpResponse := none
  request : Bool := false
  message : String := ""
deriving Repr, DecidableEq

/-- `TodoistApiError` from `src/api/errors.ts`: message, HTTP status code and
retryable flag; `name` distinguishes the `RateLimitError` subclass. -/
structure TodoistApiError where
  name : String := "TodoistApiError"
  message : String
  statusCode : Nat
  retryable : Bool
deriving Repr, DecidableEq

/-- The trailing part of `TodoistClient.handleError`: reached when no response
branch threw (no response at all, or a response whose status matched no class). -/
def handleErrorFallthrough (e : AxiosErrorModel) : TodoistApiError :=
  if e.request then
    { message := "Network error. Please check your internet connection.",
      statusCode := 0, retryable := true }
  else
    { message := if e.message = "" then "Unknown error occurred" else e.message,
      statusCode := 0, retryable := false }

/-- `TodoistClient.handleError` from `src/api/client.ts`: classify a failed
remote call.  The thrown error is returned as a value. -/
def handleError (e : AxiosErrorModel) : TodoistApiError :=
  match e.response with
  | some r =>
    if r.status = 429 then
      { name := "RateLimitError",
        message := "Rate limit exceeded. Please try again later.",
        statusCode := 429, retryable := true }
    else if 400 ≤ r.status ∧ r.status < 500 then
      { message := jsOr r.data.error
          (jsOr r.data.message ("HTTP " ++ toString r.status ++ ": Invalid request")),
        statusCode := r.status, retryable := false }
    else if 500 ≤ r.status then
      { message := jsOr r.data.error (jsOr r.data.message "Todoist server error"),
        statusCode := r.status, retryable := true }
    else
      handleErrorFallthrough e
  | none => handleErrorFallthrough e

/-- The error-classification contract exactly as the specification words it:
429 is rate-limited and retryable; 400–499 other than 429 is a non-retryable
client error; ≥ 500 is a retryable server error; *no response received* is a
retryable network error with status 0; anything else is a non-retryable
unknown error with status 0. -/
def specErrorClassification : Prop :=
  ∀ e : AxiosErrorModel,
    (∀ r, e.response = some r → r.status = 429 →
      (handleError e).statusCode = 429 ∧ (handleError e).retryable = true) ∧
    (∀ r, e.response = some r → r.status ≠ 429 → 400 ≤ r.status → r.status < 500 →
      (handleError e).statusCode = r.status ∧ (handleError e).retryable = false) ∧
    (∀ r, e.response = some r → 500 ≤ r.status →
      (handleError e).statusCode = r.status ∧ (handleError e).retryable = true) ∧
    (e.response = none → e.request = true →
      (handleError e).statusCode = 0 ∧ (handleError e).retryable = true) ∧
    (∀ r, e.response = some r → r.status ≠ 429 → ¬ (400 ≤ r.status) →
      (handleError e).statusCode = 0 ∧ (handleError e).retryable = false)

/-! ## Validation layer (`src/tools/schemas.ts`)

Zod collects every violated constraint; an issue carries the field path and a
message.  Caller-supplied argument bundles are modelled with `Option` fields
(`none` = absent); numeric arguments are rationals so that the `.int()`
check is meaningful. -/

/-- One Zod validation issue: field path and message. -/
structure ZodIssue where
  path : List String
  message : String
deriving Repr, DecidableEq

/-- Issues produced by `prioritySchema` (`z.number().int().min(1).max(4)`)
on a present numeric value; every failing check contributes an issue. -/
def prioritySchemaIssues (q : ℚ) : List ZodIssue :=
  (if q.den ≠ 1 then [⟨["priority"], "Expected integer, received float"⟩] else []) ++
  (if q < 1 then [⟨["priority"], "Number must be greater than or equal to 1"⟩] else []) ++
  (if q > 4 then [⟨["priority"], "Number must be less than or equal to 4"⟩] else [])

/-- Issues produced by the `limit` schema
(`z.number().int().positive().max(200)`) on a present numeric value. -/
def limitSchemaIssues (q : ℚ) : List ZodIssue :=
  (if q.den ≠ 1 then [⟨["limit"], "Expected integer, received float"⟩] else []) ++
  (if q ≤ 0 then [⟨["limit"], "Number must be greater than 0"⟩] else []) ++
  (if q > 200 then [⟨["limit"], "Number must be less than or equal to 200"⟩] else [])

/-- Untyped argument bundle for `todoist_create_task` (`none` = field absent). -/
structure CreateTaskArgs where
  content : Option String := none
  description : Option String := none
  project_id : Option String := none
  section_id : Option String := none
  due_date : Option String := none
  priority : Option ℚ := none
  labels : Option (List String) := none
  parent_id : Option String := none
  parent_task_name : Option String := none
deriving Repr, DecidableEq

/-- `CreateTaskInput`: the typed value produced by `createTaskSchema.parse`. -/
structure CreateTaskInput where
  content : String
  description : Option String := none
  project_id : Option String := none
  section_id : Option String := none
  due_date : Option String := none
  priority : Option Nat := none
  labels : Option (List String) := none
  parent_id : Option String := none
  parent_task_name : Option String := none
deriving Repr, DecidableEq

/-- `createTaskSchema.parse`: field checks in declaration order, collecting
every issue; the `.refine` cross-field rule (mutual exclusion of `parent_id`
and `parent_task_name`) runs only when the base object parses cleanly. -/
def createTaskParse (args : CreateTaskArgs) : Except (List ZodIssue) CreateTaskInput :=
  let contentIssues :=
    match args.content with
    | none => [⟨["content"], "Required"⟩]
    | some s => if s.length < 1 then [⟨["content"], "Task content is required"⟩] else []
  let priorityIssues :=
    match args.priority with
    | none => []
    | some q => prioritySchemaIssues q
  let issues := contentIssues ++ priorityIssues
  if issues.isEmpty then
    let input : CreateTaskInput :=
      { content := args.content.getD "",
        description := args.description,
        project_id := args.project_id,
        section_id := args.section_id,
        due_date := args.due_date,
        priority := args.priority.map (fun q => q.num.toNat),
        labels := args.labels,
        parent_id := args.parent_id,
        parent_task_name := args.parent_task_name }
    if truthyStr input.parent_id && truthyStr input.parent_task_name then
      .error [⟨[], "Cannot specify both parent_id and parent_task_name. Use one or the other."⟩]
    else
      .ok input
  else
    .error issues

/-- Untyped argument bundle for `todoist_list_tasks`. -/
structure ListTasksArgs where
  project_id : Option String := none
  section_id : Option String := none
  label : Option String := none
  filter : Option String := none
  limit : Option ℚ := none
deriving Repr, DecidableEq

/-- `ListTasksInput`: typed value after validation (`limit` defaulted). -/
structure ListTasksInput where
  project_id : Option String := none
  section_id : Option String := none
  label : Option String := none
  filter : Option String := none
  limit : Nat := 50
deriving Repr, DecidableEq

/-- `listTasksSchema.parse`: optional string filters pass through; `limit`
defaults to 50 when absent and must be a positive integer ≤ 200. -/
def listTasksParse (args : ListTasksArgs) : Except (List ZodIssue) ListTasksInput :=
  match args.limit with
  | none =>
    .ok { project_id := args.project_id, section_id := args.section_id,
          label := args.label, filter := args.filter, limit := 50 }
  | some q =>
    if (limitSchemaIssues q).isEmpty then
      .ok { project_id := args.project_id, section_id := args.section_id,
            label := args.label, filter := args.filter, limit := q.num.toNat }
    else
      .error (limitSchemaIssues q)

/-- Untyped argument bundle for `todoist_search_tasks`. -/
structure SearchTasksArgs where
  query : Option String := none
  limit : Option ℚ := none
deriving Repr, DecidableEq

/-- `SearchTasksInput`: typed value after validation. -/
structure SearchTasksInput where
  query : String
  limit : Nat := 50
deriving Repr, DecidableEq

/-- `searchTasksSchema.parse`: `query` is a required non-empty string,
`limit` as for `list_tasks`; all issues are collected. -/
def searchTasksParse (args : SearchTasksArgs) : Except (List ZodIssue) SearchTasksInput :=
  let queryIssues :=
    match args.query with
    | none => [⟨["query"], "Required"⟩]
    | some s => if s.length < 1 then [⟨["query"], "Search query is required"⟩] else []
  let limitIssues :=
    match args.limit with
    | none => []
    | some q => limitSchemaIssues q
  let issues := queryIssues ++ limitIssues
  if issues.isEmpty then
    .ok { query := args.query.getD "",
          limit := (args.limit.map (fun q => q.num.toNat)).getD 50 }
  else
    .error issues

/-- Untyped argument bundle for `todoist_update_task`. -/
structure UpdateTaskArgs where
  task_id : Option String := none
  content : Option String := none
  description : Option String := none
  due_date : Option String := none
  priority : Option ℚ := none
  labels : Option (List String) := none
deriving Repr, DecidableEq

/-- `UpdateTaskInput`: typed value after validation. -/
structure UpdateTaskInput where
  task_id : String
  content : Option String := none
  description : Option String := none
  due_date : Option String := none
  priority : Option Nat := none
  labels : Option (List String) := none
deriving Repr, DecidableEq

/-- `updateTaskSchema.parse`: `task_id` is a required non-empty string; all
other fields optional; all issues are collected. -/
def updateTaskParse (args : UpdateTaskArgs) : Except (List ZodIssue) UpdateTaskInput :=
  let taskIdIssues :=
    match args.task_id with
    | none => [⟨["task_id"], "Required"⟩]
    | some s => if s.length < 1 then [⟨["task_id"], "Task ID is required"⟩] else []
  let priorityIssues :=
    match args.priority with
    | none => []
    | some q => prioritySchemaIssues q
  let issues := taskIdIssues ++ priorityIssues
  if issues.isEmpty then
    .ok { task_id := args.task_id.getD "",
          content := args.content,
          description := args.description,
          due_date := args.due_date,
          priority := args.priority.map (fun q => q.num.toNat),
          labels := args.labels }
  else
    .error issues

/-! ## Result envelope and outbound-call trace -/

/-- One content block of a tool response (`{type: 'text', text}`). -/
structure ContentBlock where
  type : String
  text : String
deriving Repr, DecidableEq

/-- `ToolResponse`: ordered content blocks plus an error flag
(`isError?: boolean`, absent = `false`). -/
structure ToolResponse where
  content : List ContentBlock
  isError : Bool := false
deriving Repr, DecidableEq

/-- An outbound remote call a handler performed, in order. -/
inductive ApiCall where
  | getTasks (params : TasksQueryParams)
  | postCreateTask (params : CreateTaskParams)
  | postUpdateTask (taskId : String) (params : UpdateTaskParams)
deriving Repr, DecidableEq

/-- The `catch (error instanceof ZodError)` branch shared verbatim by every
handler: the envelope text joins every issue as `path: message`. -/
def validationErrorResponse (issues : List ZodIssue) : ToolResponse :=
  { content := [⟨"text", "Validation error: " ++
      String.intercalate ", "
        (issues.map (fun e => String.intercalate "." e.path ++ ": " ++ e.message))⟩],
    isError := true }

/-! ## Formatters -/

/-- One line of a task list; the `tasks.map((task, index) => ...)` body, which
is textually identical in `list-tasks.ts` and `search-tasks.ts`. -/
def formatTaskLine (index : Nat) (task : TodoistTask) : String :=
  let parts := [toString (index + 1) ++ ". " ++ task.content]
  let parts := parts ++ (match task.due with
    | some d => ["(Due: " ++ d.string ++ ")"]
    | none => [])
  let parts := parts ++ (if task.priority > 1 then ["[P" ++ toString task.priority ++ "]"] else [])
  let parts := parts ++ (if task.labels.length > 0 then ["[" ++ String.intercalate ", " task.labels ++ "]"] else [])
  let parts := parts ++ ["[ID: " ++ task.id ++ "]"]
  String.intercalate " " parts

/-- `formatTaskList` from `src/tools/list-tasks.ts`. -/
def formatTaskList (tasks : List TodoistTask) (total : Nat) : String :=
  let header :=
    if total > tasks.length then
      "Found " ++ toString total ++ " task(s), showing first " ++ toString tasks.length ++ ":\n"
    else
      "Found " ++ toString tasks.length ++ " task(s):\n"
  header ++ "\n" ++ String.intercalate "\n" (tasks.enum.map (fun p => formatTaskLine p.1 p.2))

/-- `formatSearchResults` from `src/tools/search-tasks.ts`. -/
def formatSearchResults (tasks : List TodoistTask) (total : Nat) (query : String) : String :=
  let header :=
    if total > tasks.length then
      "Found " ++ toString total ++ " task(s) matching \"" ++ query ++ "\", showing first " ++
        toString tasks.length ++ ":\n"
    else
      "Found " ++ toString tasks.length ++ " task(s) matching \"" ++ query ++ "\":\n"
  header ++ "\n" ++ String.intercalate "\n" (tasks.enum.map (fun p => formatTaskLine p.1 p.2))

/-- `formatTaskDetails` from `src/tools/create-task.ts`. -/
def formatTaskDetails (task : TodoistTask) : String :=
  let parts := ["✓ Task created successfully!", "", "ID: " ++ task.id, "Content: " ++ task.content]
  let parts := parts ++ (if truthyS task.description then ["Description: " ++ task.description] else [])
  let parts := parts ++ (match task.due with
    | some d => ["Due: " ++ d.string]
    | none => [])
  let parts := parts ++ (if task.priority > 1 then
    ["Priority: " ++ (["", "Normal", "Medium", "High", "Urgent"].getD task.priority "undefined")]
    else [])
  let parts := parts ++ (if task.labels.length > 0 then ["Labels: " ++ String.intercalate ", " task.labels] else [])
  let parts := parts ++ ["", "View in Todoist: " ++ task.url]
  String.intercalate "\n" parts

/-- `formatTaskSummary` from `src/tools/update-task.ts`. -/
def formatTaskSummary (task : TodoistTask) : String :=
  let parts := ["ID: " ++ task.id, "Content: " ++ task.content]
  let parts := parts ++ (match task.due with
    | some d => ["Due: " ++ d.string]
    | none => [])
  let parts := parts ++ (if task.priority > 1 then
    ["Priority: " ++ (["", "Normal", "Medium", "High", "Urgent"].getD task.priority "undefined")]
    else [])
  let parts := parts ++ (if task.labels.length > 0 then ["Labels: " ++ String.intercalate ", " task.labels] else [])
  let parts := parts ++ ["", "View in Todoist: " ++ task.url]
  String.intercalate "\n" parts

/-! ## Operation handlers -/

/-- The `taskParams` object built by `createTask` before parent resolution:
truthy optional strings are copied, `priority` is copied when present
(`!== undefined`), `labels` when present (arrays are always truthy). -/
def buildCreateTaskParams (params : CreateTaskInput) : CreateTaskParams :=
  { content := params.content,
    description := if truthyStr params.description then params.description else none,
    project_id := if truthyStr params.project_id then params.project_id else none,
    section_id := if truthyStr params.section_id then params.section_id else none,
    priority := params.priority,
    labels := params.labels,
    due_string := if truthyStr params.due_date then params.due_date else none }

/-- Tail of `createTask`: set `taskParams.parent_id` when `parentId` is truthy,
post the create call, and format the success (or remote-failure) envelope. -/
def finishCreateTask (create : CreateTaskParams → Except TodoistApiError TodoistTask)
    (taskParams : CreateTaskParams) (parentId : Option String)
    (calls : List ApiCall) : ToolResponse × List ApiCall :=
  let taskParams := if truthyStr parentId then { taskParams with parent_id := parentId } else taskParams
  match create taskParams with
  | .ok task =>
    let text := formatTaskDetails task ++
      (if truthyStr task.parent_id then
        "\n\nℹ️  This is a subtask (parent: " ++ task.parent_id.getD "" ++ ")"
      else "")
    ({ content := [⟨"text", text⟩] }, calls ++ [.postCreateTask taskParams])
  | .error e =>
    ({ content := [⟨"text", "Error creating task: " ++ e.message⟩], isError := true },
      calls ++ [.postCreateTask taskParams])

/-- `createTask` from `src/tools/create-task.ts`.  `allTasks` is what a
successful `GET /tasks` returns; `create` is the remote create oracle.
Returns the envelope together with the outbound calls performed. -/
def createTask (allTasks : List TodoistTask)
    (create : CreateTaskParams → Except TodoistApiError TodoistTask)
    (args : CreateTaskArgs) : ToolResponse × List ApiCall :=
  match createTaskParse args with
  | .error issues => (validationErrorResponse issues, [])
  | .ok params =>
    let taskParams := buildCreateTaskParams params
    if truthyStr params.parent_task_name then
      let nm := params.parent_task_name.getD ""
      let query := toLowerCase nm
      let matched := allTasks.filter (fun t => strIncludes (toLowerCase t.content) query)
      match matched with
      | [] =>
        ({ content := [⟨"text", "No parent task found matching \"" ++ nm ++
            "\". Please check the task name or use a task ID instead."⟩],
           isError := true }, [.getTasks {}])
      | [m] => finishCreateTask create taskParams (some m.id) [.getTasks {}]
      | ms =>
        let matchList := String.intercalate "\n"
          ((ms.take 5).enum.map (fun p =>
            toString (p.1 + 1) ++ ". \"" ++ p.2.content ++ "\" [ID: " ++ p.2.id ++ "]"))
        let moreText := if ms.length > 5 then "\n\n...and " ++ toString (ms.length - 5) ++ " more" else ""
        ({ content := [⟨"text", "Found " ++ toString ms.length ++ " tasks matching \"" ++ nm ++
            "\":\n\n" ++ matchList ++ moreText ++
            "\n\nPlease be more specific or use the task ID instead."⟩],
           isError := true }, [.getTasks {}])
    else
      finishCreateTask create taskParams params.parent_id []

/-- The `queryParams` object built by `listTasks`: only truthy filters are sent. -/
def buildListQueryParams (params : ListTasksInput) : TasksQueryParams :=
  { project_id := if truthyStr params.project_id then params.project_id else none,
    section_id := if truthyStr params.section_id then params.section_id else none,
    label := if truthyStr params.label then params.label else none,
    filter := if truthyStr params.filter then params.filter else none }

/-- `listTasks` from `src/tools/list-tasks.ts`.  `fetch` maps the query
parameters to the tasks a successful `GET /tasks` returns. -/
def listTasks (fetch : TasksQueryParams → List TodoistTask)
    (args : ListTasksArgs) : ToolResponse × List ApiCall :=
  match listTasksParse args with
  | .error issues => (validationErrorResponse issues, [])
  | .ok params =>
    let queryParams := buildListQueryParams params
    let tasks := fetch queryParams
    let limitedTasks := tasks.take params.limit
    if limitedTasks.isEmpty then
      ({ content := [⟨"text", "No tasks found."⟩] }, [.getTasks queryParams])
    else
      ({ content := [⟨"text", formatTaskList limitedTasks tasks.length⟩] }, [.getTasks queryParams])

/-- `searchTasks` from `src/tools/search-tasks.ts`.  `allTasks` is what a
successful unfiltered `GET /tasks` returns. -/
def searchTasks (allTasks : List TodoistTask)
    (args : SearchTasksArgs) : ToolResponse × List ApiCall :=
  match searchTasksParse args with
  | .error issues => (validationErrorResponse issues, [])
  | .ok params =>
    let query := toLowerCase params.query
    let matchingTasks := allTasks.filter (fun task =>
      strIncludes (toLowerCase task.content) query ||
      strIncludes (toLowerCase task.description) query)
    let limitedTasks := matchingTasks.take params.limit
    if limitedTasks.isEmpty then
      ({ content := [⟨"text", "No tasks found matching \"" ++ params.query ++ "\"."⟩] },
        [.getTasks {}])
    else
      ({ content := [⟨"text", formatSearchResults limitedTasks matchingTasks.length params.query⟩] },
        [.getTasks {}])

/-- The `updateData` object built by `updateTask`: every field explicitly
supplied (`!== undefined`) is copied, `due_date` into `due_string`. -/
def buildUpdateData (params : UpdateTaskInput) : UpdateTaskParams :=
  { content := params.content,
    description := params.description,
    priority := params.priority,
    labels := params.labels,
    due_string := params.due_date }

/-- `updateTask` from `src/tools/update-task.ts`.  `remote` maps the task id
and update payload to the remote outcome of `POST /tasks/{id}`. -/
def updateTask (remote : String → UpdateTaskParams → Except TodoistApiError TodoistTask)
    (args : UpdateTaskArgs) : ToolResponse × List ApiCall :=
  match updateTaskParse args with
  | .error issues => (validationErrorResponse issues, [])
  | .ok params =>
    let updateData := buildUpdateData params
    match remote params.task_id updateData with
    | .ok task =>
      ({ content := [⟨"text", "✓ Task updated successfully!\n\n" ++ formatTaskSummary task⟩] },
        [.postUpdateTask params.task_id updateData])
    | .error e =>
      ({ content := [⟨"text", "Error updating task: " ++ e.message⟩], isError := true },
        [.postUpdateTask params.task_id updateData])

/-! ## Dispatch shell (`src/index.ts`, `CallToolRequestSchema` handler) -/

/-- A language-level fault escaping a handler (a thrown JS error). -/
structure Fault where
  message : String
deriving Repr, DecidableEq

/-- The outcome of each of the seven handlers for one incoming request:
either a returned envelope or an escaped fault. -/
structure HandlerSet where
  createTask : Except Fault ToolResponse
  listTasks : Except Fault ToolResponse
  getTask : Except Fault ToolResponse
  updateTask : Except Fault ToolResponse
  completeTask : Except Fault ToolResponse
  listProjects : Except Fault ToolResponse
  searchTasks : Except Fault ToolResponse

/-- The catalog of the seven operation names advertised by the server. -/
def knownToolNames : List String :=
  ["todoist_create_task", "todoist_list_tasks", "todoist_get_task", "todoist_update_task",
   "todoist_complete_task", "todoist_list_projects", "todoist_search_tasks"]

/-- The `switch (name)` of the `CallToolRequestSchema` handler: route the
operation name to the matching handler; `none` for the `default` branch. -/
def selectHandler (hs : HandlerSet) : String → Option (Except Fault ToolResponse)
  | "todoist_create_task" => some hs.createTask
  | "todoist_list_tasks" => some hs.listTasks
  | "todoist_get_task" => some hs.getTask
  | "todoist_update_task" => some hs.updateTask
  | "todoist_complete_task" => some hs.completeTask
  | "todoist_list_projects" => some hs.listProjects
  | "todoist_search_tasks" => some hs.searchTasks
  | _ => none

/-- The `CallToolRequestSchema` handler from `src/index.ts`: unknown names get
an error envelope naming the operation; a fault escaping a handler is caught
and converted to an `Error: message` envelope.  Total by construction. -/
def callToolHandler (hs : HandlerSet) (name : String) : ToolResponse :=
  match selectHandler hs name with
  | none => { content := [⟨"text", "Unknown tool: " ++ name⟩], isError := true }
  | some (.ok r) => r
  | some (.error e) => { content := [⟨"text", "Error: " ++ e.message⟩], isError := true }

/-! ## Helper lemmas -/

/-- A character of `Nat.digitChar k` for `k < 10` is a decimal digit. -/
lemma digitChar_isDigit {k : Nat} (h : k < 10) : (Nat.digitChar k).isDigit = true := by
  interval_cases k <;> decide

/-- Every character `Nat.toDigitsCore 10` appends is a digit or was already there. -/
lemma toDigitsCore_mem : ∀ (fuel n : Nat) (ds : List Char) (c : Char),
    c ∈ Nat.toDigitsCore 10 fuel n ds → c ∈ ds ∨ c.isDigit = true := by
  intro fuel
  induction fuel with
  | zero => intro n ds c hc; exact Or.inl hc
  | succ fuel ih =>
    intro n ds c hc
    unfold Nat.toDigitsCore at hc
    by_cases hz : n / 10 = 0
    · rw [if_pos hz] at hc
      rcases List.mem_cons.mp hc with h | h
      · exact Or.inr (h ▸ digitChar_isDigit (Nat.mod_lt n (by norm_num)))
      · exact Or.inl h
    · rw [if_neg hz] at hc
      rcases ih (n / 10) (Nat.digitChar (n % 10) :: ds) c hc with h | h
      · rcases List.mem_cons.mp h with h' | h'
        · exact Or.inr (h' ▸ digitChar_isDigit (Nat.mod_lt n (by norm_num)))
        · exact Or.inl h'
      · exact Or.inr h

/-- Every character of the decimal rendering of a natural number is a digit. -/
lemma toString_nat_isDigit (n : Nat) : ∀ c ∈ (toString n).data, c.isDigit = true := by
  intro c hc
  have hc' : c ∈ Nat.toDigitsCore 10 (n + 1) n [] := hc
  rcases toDigitsCore_mem (n + 1) n [] c hc' with h | h
  · exact absurd h (List.not_mem_nil c)
  · exact h

/-- A member of a `List.isPrefixOf`-verified pattern is a member of the list. -/
lemma isPrefixOf_mem : ∀ (p l : List Char), p.isPrefixOf l = true → ∀ c ∈ p, c ∈ l := by
  intro p
  induction p with
  | nil => intro l _ c hc; exact absurd hc (List.not_mem_nil c)
  | cons a as ih =>
    intro l hp c hc
    cases l with
    | nil => exact absurd hp (by simp [List.isPrefixOf])
    | cons b bs =>
      rw [List.isPrefixOf_cons₂, Bool.and_eq_true] at hp
      rcases List.mem_cons.mp hc with h | h
      · exact List.mem_cons.mpr (Or.inl (h.trans (eq_of_beq hp.1)))
      · exact List.mem_cons.mpr (Or.inr (ih bs hp.2 c h))

/-- If a pattern occurs contiguously in a list, its characters are members. -/
lemma containsSub_mem : ∀ (l p : List Char), containsSub p l = true → ∀ c ∈ p, c ∈ l := by
  intro l
  induction l with
  | nil =>
    intro p hp c hc
    have : p = [] := List.isEmpty_iff.mp hp
    exact absurd (this ▸ hc) (List.not_mem_nil c)
  | cons b bs ih =>
    intro p hp c hc
    rw [containsSub, Bool.or_eq_true] at hp
    rcases hp with h | h
    · exact isPrefixOf_mem p (b :: bs) h c hc
    · exact List.mem_cons.mpr (Or.inr (ih p h c hc))

/-- The untruncated list header contains no `showing first` clause:
its only non-fixed characters are decimal digits. -/
lemma list_header_no_showing_first (n : Nat) :
    strIncludes ("Found " ++ toString n ++ " task(s):\n") "showing first" = false := by
  by_contra h
  rw [Bool.not_eq_false] at h
  have hw : ('w' : Char) ∈ ("Found " ++ toString n ++ " task(s):\n").data :=
    containsSub_mem _ _ h 'w' (by decide)
  rw [String.data_append, String.data_append] at hw
  rcases List.mem_append.mp hw with hw' | hw'
  · rcases List.mem_append.mp hw' with hw'' | hw''
    · exact absurd hw'' (by decide)
    · exact absurd (toString_nat_isDigit n 'w' hw'') (by decide)
  · exact absurd hw' (by decide)

/-! ## Claim C2 — error classification (corrected)

The claim's wording ("network error when no response was received, unknown
error otherwise") does not match `handleError`: a response whose status fits
no class (any status below 400, e.g. `304 Not Modified`) falls through to the
`error.request` test, so — a request object being present whenever a response
was received — it is classified as a retryable network error with status 0,
not as a non-retryable unknown error. -/

/-- C2 counterexample: the specification's classification taxonomy is refuted
by a failed call carrying a `304` response: the claim requires a non-retryable
unknown error there, but `handleError` classifies it as a retryable network
error. -/
theorem c2_counterexample : ¬ specErrorClassification := by
  intro h
  have hc := (h { response := some { status := 304 }, request := true, message := "Not modified" }).2.2.2.2
    { status := 304 } rfl (by decide) (by decide)
  exact absurd hc.2 (by decide)

/-- C2 (amended): `handleError` classifies every failure as exactly one of:
rate-limited (status 429, retryable), client error (4xx other than 429,
non-retryable, carrying the response status), server error (≥ 500, retryable,
carrying the status), network error (status 0, retryable) when a request
object exists but either no response was received or the response status fits
no class (status below 400), and unknown error (status 0, non-retryable) when
not even a request object exists. -/
theorem c2_error_classification (e : AxiosErrorModel) :
    (∀ r, e.response = some r → r.status = 429 →
      handleError e = { name := "RateLimitError",
                        message := "Rate limit exceeded. Please try again later.",
                        statusCode := 429, retryable := true }) ∧
    (∀ r, e.response = some r → r.status ≠ 429 → 400 ≤ r.status → r.status < 500 →
      (handleError e).statusCode = r.status ∧ (handleError e).retryable = false) ∧
    (∀ r, e.response = some r → 500 ≤ r.status →
      (handleError e).statusCode = r.status ∧ (handleError e).retryable = true) ∧
    ((e.response = none ∨ ∃ r, e.response = some r ∧ r.status < 400) → e.request = true →
      (handleError e).statusCode = 0 ∧ (handleError e).retryable = true) ∧
    ((e.response = none ∨ ∃ r, e.response = some r ∧ r.status < 400) → e.request = false →
      (handleError e).statusCode = 0 ∧ (handleError e).retryable = false) := by
  refine ⟨?_, ?_, ?_, ?_, ?_⟩
  · intro r hr h429
    simp [handleError, hr, h429]
  · intro r hr hne h4 h5
    simp only [handleError, hr]
    rw [if_neg hne, if_pos ⟨h4, h5⟩]
    exact ⟨rfl, rfl⟩
  · intro r hr h5
    have hne : r.status ≠ 429 := by omega
    have hnc : ¬(400 ≤ r.status ∧ r.status < 500) := by omega
    simp only [handleError, hr]
    rw [if_neg hne, if_neg hnc, if_pos h5]
    exact ⟨rfl, rfl⟩
  · intro hd hreq
    rcases hd with hn | ⟨r, hr, hlt⟩
    · simp [handleError, hn, handleErrorFallthrough, hreq]
    · have hne : r.status ≠ 429 := by omega
      have hnc : ¬(400 ≤ r.status ∧ r.status < 500) := by omega
      have hns : ¬(500 ≤ r.status) := by omega
      simp only [handleError, hr]
      rw [if_neg hne, if_neg hnc, if_neg hns]
      simp [handleErrorFallthrough, hreq]
  · intro hd hreq
    rcases hd with hn | ⟨r, hr, hlt⟩
    · simp [handleError, hn, handleErrorFallthrough, hreq]
    · have hne : r.status ≠ 429 := by omega
      have hnc : ¬(400 ≤ r.status ∧ r.status < 500) := by omega
      have hns : ¬(500 ≤ r.status) := by omega
      simp only [handleError, hr]
      rw [if_neg hne, if_neg hnc, if_neg hns]
      simp [handleErrorFallthrough, hreq]

/-- C2 witness: concrete classifications — a 429 response is rate-limited and
retryable, and a 404 with a server-provided message is a non-retryable client
error carrying status 404. -/
theorem c2_error_classification_witness :
    handleError { response := some { status := 429 }, request := true, message := "" } =
      { name := "RateLimitError", message := "Rate limit exceeded. Please try again later.",
          statusCode := 429, retryable := true } ∧
    (handleError { response := some { status := 404 }, request := true, message := "" }).statusCode = 404 ∧
    (handleError { response := some { status := 404 }, request := true, message := "" }).retryable = false := by
  refine ⟨(c2_error_classification _).1 { status := 429 } rfl rfl, ?_⟩
  have h := (c2_error_classification { response := some { status := 404 }, request := true, message := "" }).2.1
    { status := 404 } rfl (by decide) (by decide) (by decide)
  exact h

/-! ## Claim C3 — parent_id / parent_task_name mutual exclusion -/

/-- `createTaskSchema.parse` never succeeds when both `parent_id` and
`parent_task_name` are supplied non-empty (the `.refine` cross-field rule). -/
lemma createTaskParse_ok_not_both {args : CreateTaskArgs} {params : CreateTaskInput}
    (h : createTaskParse args = .ok params)
    (h1 : truthyStr args.parent_id = true) (h2 : truthyStr args.parent_task_name = true) :
    False := by
  simp only [createTaskParse, h1, h2, Bool.and_self, if_true] at h
  split at h <;> simp_all

/-- C3: supplying both `parent_id` and `parent_task_name` (non-empty) on
create_task fails validation: the handler returns an error-flagged envelope
and performs no remote call. -/
theorem c3_parent_fields_mutually_exclusive
    (args : CreateTaskArgs) (allTasks : List TodoistTask)
    (create : CreateTaskParams → Except TodoistApiError TodoistTask)
    (h1 : truthyStr args.parent_id = true) (h2 : truthyStr args.parent_task_name = true) :
    (∃ issues, createTaskParse args = .error issues) ∧
    (createTask allTasks create args).1.isError = true ∧
    (createTask allTasks create args).2 = [] := by
  rcases he : createTaskParse args with issues | params
  · exact ⟨⟨issues, rfl⟩, by simp [createTask, he, validationErrorResponse]⟩
  · exact absurd (createTaskParse_ok_not_both he h1 h2) not_false

/-- C3 witness: a concrete bundle with both parent fields set fails validation
with an error envelope and an empty call trace. -/
theorem c3_parent_fields_witness :
    (∃ issues, createTaskParse
      { content := some "Write tests", parent_id := some "100", parent_task_name := some "Release" } = .error issues) ∧
    (createTask [] (fun p => .ok { id := "1", content := p.content })
      { content := some "Write tests", parent_id := some "100", parent_task_name := some "Release" }).1.isError = true ∧
    (createTask [] (fun p => .ok { id := "1", content := p.content })
      { content := some "Write tests", parent_id := some "100", parent_task_name := some "Release" }).2 = [] :=
  c3_parent_fields_mutually_exclusive _ _ _ (by decide) (by decide)

/-- A non-empty string passes the `min(1)` length check. -/
lemma not_length_lt_one_of_ne_empty {s : String} (h : s ≠ "") : ¬ s.length < 1 := by
  intro hz
  obtain ⟨d⟩ := s
  have hd : d = [] := List.length_eq_zero.mp (Nat.lt_one_iff.mp hz)
  exact h (by rw [hd])

/-! ## Claim C6 — `limit` validation -/

/-- The `limit` chain (`int`, `positive`, `max(200)`) yields no issue exactly
for integral rationals in `1..200`. -/
lemma limitSchemaIssues_isEmpty_iff (q : ℚ) :
    (limitSchemaIssues q).isEmpty = true ↔ (q.den = 1 ∧ 1 ≤ q ∧ q ≤ 200) := by
  rw [List.isEmpty_iff]
  unfold limitSchemaIssues
  constructor
  · intro h
    by_cases h1 : q.den ≠ 1 <;> by_cases h2 : q ≤ 0 <;> by_cases h3 : q > 200 <;>
      simp [h1, h2, h3] at h ⊢
    have hden : q.den = 1 := not_not.mp h1
    have hnum : (0:ℤ) < q.num := Rat.num_pos.mpr (lt_of_not_le h2)
    have hone : ((1:ℤ):ℚ) ≤ (q.num:ℚ) := by exact_mod_cast hnum
    rw [(Rat.den_eq_one_iff q).mp hden] at hone
    exact ⟨hden, by exact_mod_cast hone, le_of_not_lt h3⟩
  · rintro ⟨hden, hone, h200⟩
    have h1 : ¬ q.den ≠ 1 := not_not.mpr hden
    have h2 : ¬ q ≤ 0 := not_le.mpr (lt_of_lt_of_le one_pos hone)
    have h3 : ¬ q > 200 := not_lt.mpr h200
    simp [h1, h2, h3]

/-- C6: on both list_tasks and search_tasks, `limit` validates to 50 when
absent and a supplied value is accepted exactly when it is an integer in
`1..200` (hence 0, negatives, values above 200 and non-integers are
rejected). -/
theorem c6_limit_validation (la : ListTasksArgs) (sa : SearchTasksArgs) (qs : String) (q : ℚ) :
    (la.limit = none →
      listTasksParse la = .ok { project_id := la.project_id, section_id := la.section_id,
                                label := la.label, filter := la.filter, limit := 50 }) ∧
    (sa.query = some qs → qs ≠ "" → sa.limit = none →
      searchTasksParse sa = .ok { query := qs, limit := 50 }) ∧
    (la.limit = some q →
      ((∃ p, listTasksParse la = .ok p) ↔ (q.den = 1 ∧ 1 ≤ q ∧ q ≤ 200))) ∧
    (sa.query = some qs → qs ≠ "" → sa.limit = some q →
      ((∃ p, searchTasksParse sa = .ok p) ↔ (q.den = 1 ∧ 1 ≤ q ∧ q ≤ 200))) := by
  refine ⟨?_, ?_, ?_, ?_⟩
  · intro h
    simp [listTasksParse, h]
  · intro hq hqs h
    simp [searchTasksParse, hq, h, not_length_lt_one_of_ne_empty hqs]
  · intro h
    by_cases he : (limitSchemaIssues q).isEmpty = true
    · refine iff_of_true ⟨{ project_id := la.project_id, section_id := la.section_id, label := la.label, filter := la.filter, limit := q.num.toNat }, ?_⟩
        ((limitSchemaIssues_isEmpty_iff q).mp he)
      simp [listTasksParse, h, he]
    · refine iff_of_false ?_ (fun hc => he ((limitSchemaIssues_isEmpty_iff q).mpr hc))
      rintro ⟨p, hp⟩
      simp [listTasksParse, h, he] at hp
  · intro hq hqs h
    have hlen := not_length_lt_one_of_ne_empty hqs
    by_cases he : (limitSchemaIssues q).isEmpty = true
    · refine iff_of_true ⟨{ query := qs, limit := q.num.toNat }, ?_⟩
        ((limitSchemaIssues_isEmpty_iff q).mp he)
      simp [searchTasksParse, hq, h, hlen, List.isEmpty_iff.mp he]
    · refine iff_of_false ?_ (fun hc => he ((limitSchemaIssues_isEmpty_iff q).mpr hc))
      rintro ⟨p, hp⟩
      simp [searchTasksParse, hq, h, hlen, List.isEmpty_iff, List.isEmpty_iff.not.mp he] at hp

/-- C6 witness: with no `limit`, both parses default to 50; `limit = 200` is
accepted and `limit = 0` is rejected on list_tasks. -/
theorem c6_limit_validation_witness :
    listTasksParse { project_id := some "8" } =
      .ok { project_id := some "8", section_id := none, label := none, filter := none, limit := 50 } ∧
    searchTasksParse { query := some "milk" } = .ok { query := "milk", limit := 50 } ∧
    (∃ p, listTasksParse { limit := some 200 } = .ok p) ∧
    ¬ (∃ p, listTasksParse { limit := some 0 } = .ok p) := by
  refine ⟨(c6_limit_validation { project_id := some "8" } {} "" 0).1 rfl,
          (c6_limit_validation {} { query := some "milk" } "milk" 0).2.1 rfl (by decide) rfl,
          ((c6_limit_validation { limit := some 200 } {} "" 200).2.2.1 rfl).mpr (by norm_num),
          fun hex => ?_⟩
  have := ((c6_limit_validation { limit := some 0 } {} "" 0).2.2.1 rfl).mp hex
  norm_num at this

/-! ## Claim C7 — update payload contains exactly the supplied fields -/

/-- C7: the update payload copies exactly the supplied optional fields
(`due_date` into the natural-language `due_string`), omitted fields stay
absent, the handler issues exactly one update call carrying that payload,
an input with only `task_id` yields the empty change set, and a successful
remote outcome yields a non-error success envelope. -/
theorem c7_update_partial_payload (args : UpdateTaskArgs) (params : UpdateTaskInput)
    (remote : String → UpdateTaskParams → Except TodoistApiError TodoistTask)
    (h : updateTaskParse args = .ok params) :
    (buildUpdateData params).content = params.content ∧
    (buildUpdateData params).description = params.description ∧
    (buildUpdateData params).priority = params.priority ∧
    (buildUpdateData params).labels = params.labels ∧
    (buildUpdateData params).due_string = params.due_date ∧
    (updateTask remote args).2 = [.postUpdateTask params.task_id (buildUpdateData params)] ∧
    (params.content = none → params.description = none → params.due_date = none →
      params.priority = none → params.labels = none → buildUpdateData params = {}) ∧
    (∀ t, remote params.task_id (buildUpdateData params) = .ok t →
      (updateTask remote args).1 =
        { content := [⟨"text", "✓ Task updated successfully!\n\n" ++ formatTaskSummary t⟩] }) := by
  refine ⟨rfl, rfl, rfl, rfl, rfl, ?_, ?_, ?_⟩
  · rcases hr : remote params.task_id (buildUpdateData params) with e | t <;>
      simp [updateTask, h, hr]
  · intro h1 h2 h3 h4 h5
    simp [buildUpdateData, h1, h2, h3, h4, h5]
  · intro t hr
    simp [updateTask, h, hr]

/-- C7 witness: an input supplying only `task_id` produces the empty change
set, one update call with it, and a success envelope. -/
theorem c7_update_partial_payload_witness :
    buildUpdateData { task_id := "42" } = {} ∧
    (updateTask (fun _ _ => .ok { id := "42", content := "Old content" })
      { task_id := some "42" }).2 = [.postUpdateTask "42" {}] ∧
    (updateTask (fun _ _ => .ok { id := "42", content := "Old content" })
      { task_id := some "42" }).1.isError = false := by
  have h := c7_update_partial_payload { task_id := some "42" } { task_id := "42" }
    (fun _ _ => .ok { id := "42", content := "Old content" }) rfl
  refine ⟨h.2.2.2.2.2.2.1 rfl rfl rfl rfl rfl, h.2.2.2.2.2.1.trans (by decide), ?_⟩
  rw [h.2.2.2.2.2.2.2 { id := "42", content := "Old content" } rfl]

/-! ## Claim C10 — empty-string optionals -/

/-- C10: an optional string supplied as `""` is treated as absent by
create_task and list_tasks (the field or filter is omitted from the outbound
payload), while update_task includes an explicitly supplied empty string. -/
theorem c10_empty_string_optionals (cp : CreateTaskInput) (lp : ListTasksInput) (up : UpdateTaskInput)
    (hc : cp.description = some "") (hl : lp.filter = some "") (hu : up.description = some "") :
    buildCreateTaskParams cp = buildCreateTaskParams { cp with description := none } ∧
    (buildCreateTaskParams cp).description = none ∧
    buildListQueryParams lp = buildListQueryParams { lp with filter := none } ∧
    (buildListQueryParams lp).filter = none ∧
    (buildUpdateData up).description = some "" := by
  refine ⟨?_, ?_, ?_, ?_, ?_⟩
  · simp [buildCreateTaskParams, hc, truthyStr]
  · simp [buildCreateTaskParams, hc, truthyStr]
  · simp [buildListQueryParams, hl, truthyStr]
  · simp [buildListQueryParams, hl, truthyStr]
  · simp [buildUpdateData, hu]

/-- C10 witness: concrete empty-string arguments — dropped from the create
payload and the list query, kept in the update payload. -/
theorem c10_empty_string_optionals_witness :
    (buildCreateTaskParams { content := "Buy milk", description := some "" }).description = none ∧
    (buildListQueryParams { filter := some "" }).filter = none ∧
    (buildUpdateData { task_id := "7", description := some "" }).description = some "" := by
  have h := c10_empty_string_optionals { content := "Buy milk", description := some "" }
    { filter := some "" } { task_id := "7", description := some "" } rfl rfl rfl
  exact ⟨h.2.1, h.2.2.2.1, h.2.2.2.2⟩

/-! ## Claim C9 — validation failures list every violated constraint -/

/-- C9: whenever create_task validation fails with several issues, the
envelope text lists every one of them (field path and message, joined), the
envelope is error-flagged, and no network call is made. -/
theorem c9_validation_reports_all (args : CreateTaskArgs) (issues : List ZodIssue)
    (allTasks : List TodoistTask)
    (create : CreateTaskParams → Except TodoistApiError TodoistTask)
    (h : createTaskParse args = .error issues) (_hn : 2 ≤ issues.length) :
    createTask allTasks create args =
      ({ content := [⟨"text", "Validation error: " ++
          String.intercalate ", "
            (issues.map (fun e => String.intercalate "." e.path ++ ": " ++ e.message))⟩],
         isError := true }, []) := by
  simp [createTask, h, validationErrorResponse]

/-- C9 witness: empty `content` together with `priority = 5` violates two
constraints; both are reported together and the call trace is empty. -/
theorem c9_validation_reports_all_witness :
    createTaskParse { content := some "", priority := some 5 } =
      .error [⟨["content"], "Task content is required"⟩,
              ⟨["priority"], "Number must be less than or equal to 4"⟩] ∧
    createTask [] (fun p => .ok { id := "1", content := p.content })
      { content := some "", priority := some 5 } =
      ({ content := [⟨"text",
          "Validation error: content: Task content is required, priority: Number must be less than or equal to 4"⟩],
         isError := true }, []) := by
  refine ⟨rfl, ?_⟩
  have h := c9_validation_reports_all { content := some "", priority := some 5 }
    [⟨["content"], "Task content is required"⟩,
     ⟨["priority"], "Number must be less than or equal to 4"⟩]
    [] (fun p => .ok { id := "1", content := p.content }) rfl (by decide)
  exact h.trans (by decide)

/-! ## Claim C4 — search_tasks filter semantics -/

/-- A validated search limit is positive (`positive()` on the schema). -/
lemma searchTasksParse_ok_limit_pos {args : SearchTasksArgs} {params : SearchTasksInput}
    (h : searchTasksParse args = .ok params) : 1 ≤ params.limit := by
  simp only [searchTasksParse] at h
  split at h
  case isTrue hemp =>
    injection h with h'
    subst h'
    rcases hq : args.limit with _ | q
    · simp [hq]
    · rw [hq] at hemp
      rw [List.isEmpty_iff, List.append_eq_nil] at hemp
      obtain ⟨hden, hone, -⟩ :=
        (limitSchemaIssues_isEmpty_iff q).mp (List.isEmpty_iff.mpr hemp.2)
      have hqnum : (1:ℤ) ≤ q.num := by
        have hcast : ((q.num:ℤ):ℚ) = q := (Rat.den_eq_one_iff q).mp hden
        have h1 : ((1:ℤ):ℚ) ≤ ((q.num:ℤ):ℚ) := by rw [hcast]; exact_mod_cast hone
        exact_mod_cast h1
      simp [hq]
      omega
  case isFalse _ => exact Except.noConfusion h

/-- C4: search_tasks keeps exactly the tasks whose content or description
contains the query case-insensitively, truncates the kept tasks to the first
`limit`, and on zero matches returns the fixed message with no error flag;
exactly one fetch of all tasks is performed. -/
theorem c4_search_filter (allTasks : List TodoistTask) (args : SearchTasksArgs)
    (params : SearchTasksInput) (h : searchTasksParse args = .ok params)
    (_hq : params.query ≠ "") :
    (allTasks.filter (fun t =>
        strIncludes (toLowerCase t.content) (toLowerCase params.query) ||
        strIncludes (toLowerCase t.description) (toLowerCase params.query)) = [] →
      searchTasks allTasks args =
        ({ content := [⟨"text", "No tasks found matching \"" ++ params.query ++ "\"."⟩] },
         [.getTasks {}])) ∧
    (∀ ms, allTasks.filter (fun t =>
        strIncludes (toLowerCase t.content) (toLowerCase params.query) ||
        strIncludes (toLowerCase t.description) (toLowerCase params.query)) = ms → ms ≠ [] →
      searchTasks allTasks args =
        ({ content := [⟨"text", formatSearchResults (ms.take params.limit) ms.length params.query⟩] },
         [.getTasks {}])) := by
  have hlim : 1 ≤ params.limit := searchTasksParse_ok_limit_pos h
  constructor
  · intro hm
    simp [searchTasks, h, hm]
  · intro ms hm hne
    have htake : ¬ (ms.take params.limit).isEmpty = true := by
      rw [List.isEmpty_iff, List.take_eq_nil_iff]
      rintro (h0 | h0)
      · omega
      · exact hne h0
    simp [searchTasks, h, hm, htake]

/-- C4 witness: the claim's example — `[{content:"Buy Milk"},
{content:"Call Bob", description:"buy flowers"}]` with query `"buy"` matches
both tasks, and the result shows both. -/
theorem c4_search_filter_witness :
    ([{ id := "1", content := "Buy Milk" },
      { id := "2", content := "Call Bob", description := "buy flowers" }] :
        List TodoistTask).filter (fun t =>
      strIncludes (toLowerCase t.content) (toLowerCase "buy") ||
      strIncludes (toLowerCase t.description) (toLowerCase "buy")) =
      [{ id := "1", content := "Buy Milk" },
       { id := "2", content := "Call Bob", description := "buy flowers" }] ∧
    searchTasks [{ id := "1", content := "Buy Milk" },
        { id := "2", content := "Call Bob", description := "buy flowers" }]
      { query := some "buy" } =
      ({ content := [⟨"text",
          "Found 2 task(s) matching \"buy\":\n\n1. Buy Milk [ID: 1]\n2. Call Bob [ID: 2]"⟩] },
       [.getTasks {}]) := by
  refine ⟨by decide, ?_⟩
  have h2 := (c4_search_filter
      [{ id := "1", content := "Buy Milk" },
       { id := "2", content := "Call Bob", description := "buy flowers" }]
      { query := some "buy" } { query := "buy", limit := 50 } rfl (by decide)).2
      [{ id := "1", content := "Buy Milk" },
       { id := "2", content := "Call Bob", description := "buy flowers" }]
      (by decide) (by decide)
  exact h2.trans (by decide)

/-! ## Claim C8 — dispatch never propagates a fault -/

/-- C8: dispatch is total (it returns an envelope for every incoming pair —
`callToolHandler`'s type has no fault channel): an unrecognized operation
name yields an error envelope naming it, a fault escaping a handler is
converted to an error envelope carrying its message, and a returned envelope
passes through unchanged. -/
theorem c8_dispatch_contained (hs : HandlerSet) (name : String) :
    (name ∉ knownToolNames →
      callToolHandler hs name =
        { content := [⟨"text", "Unknown tool: " ++ name⟩], isError := true }) ∧
    (∀ f, selectHandler hs name = some (.error f) →
      callToolHandler hs name =
        { content := [⟨"text", "Error: " ++ f.message⟩], isError := true }) ∧
    (∀ r, selectHandler hs name = some (.ok r) → callToolHandler hs name = r) := by
  refine ⟨?_, ?_, ?_⟩
  · intro h
    have hn : selectHandler hs name = none := by
      simp only [knownToolNames, List.mem_cons, List.not_mem_nil, or_false, not_or] at h
      obtain ⟨h1, h2, h3, h4, h5, h6, h7⟩ := h
      unfold selectHandler
      split <;> first | rfl | simp_all
    simp [callToolHandler, hn]
  · intro f hf
    simp [callToolHandler, hf]
  · intro r hr
    simp [callToolHandler, hr]

/-- C8 witness: an unknown operation name produces the naming error envelope,
and a handler fault (`"boom"` from create_task) is converted to an
`Error: boom` envelope. -/
theorem c8_dispatch_contained_witness :
    callToolHandler
      { createTask := .error ⟨"boom"⟩, listTasks := .ok { content := [] },
        getTask := .ok { content := [] }, updateTask := .ok { content := [] },
        completeTask := .ok { content := [] }, listProjects := .ok { content := [] },
        searchTasks := .ok { content := [] } } "todoist_delete_all" =
      { content := [⟨"text", "Unknown tool: todoist_delete_all"⟩], isError := true } ∧
    callToolHandler
      { createTask := .error ⟨"boom"⟩, listTasks := .ok { content := [] },
        getTask := .ok { content := [] }, updateTask := .ok { content := [] },
        completeTask := .ok { content := [] }, listProjects := .ok { content := [] },
        searchTasks := .ok { content := [] } } "todoist_create_task" =
      { content := [⟨"text", "Error: boom"⟩], isError := true } := by
  constructor
  · exact (c8_dispatch_contained _ "todoist_delete_all").1 (by decide)
  · exact (c8_dispatch_contained _ "todoist_create_task").2.1 ⟨"boom"⟩ rfl

/-! ## Claim C5 — list headers report the true total -/

/-- C5: for a non-empty match list truncated to `limit`, both the list_tasks
and the search_tasks headers state the true total match count; when the total
exceeds the number shown they additionally state how many are shown
(`showing first <limit>`); when the total fits within the limit the plain
header is used and (for the list header, whose text is fixed up to decimal
digits) no `showing first` clause occurs anywhere in it. -/
theorem c5_header_true_total (ms : List TodoistTask) (l : Nat) (q : String) (_hne : ms ≠ []) :
    (ms.length > l →
      formatTaskList (ms.take l) ms.length =
        "Found " ++ toString ms.length ++ " task(s), showing first " ++ toString l ++ ":\n" ++
          "\n" ++ String.intercalate "\n" ((ms.take l).enum.map (fun p => formatTaskLine p.1 p.2)) ∧
      formatSearchResults (ms.take l) ms.length q =
        "Found " ++ toString ms.length ++ " task(s) matching \"" ++ q ++ "\", showing first " ++
          toString l ++ ":\n" ++
          "\n" ++ String.intercalate "\n" ((ms.take l).enum.map (fun p => formatTaskLine p.1 p.2))) ∧
    (ms.length ≤ l →
      formatTaskList (ms.take l) ms.length =
        "Found " ++ toString ms.length ++ " task(s):\n" ++
          "\n" ++ String.intercalate "\n" ((ms.take l).enum.map (fun p => formatTaskLine p.1 p.2)) ∧
      formatSearchResults (ms.take l) ms.length q =
        "Found " ++ toString ms.length ++ " task(s) matching \"" ++ q ++ "\":\n" ++
          "\n" ++ String.intercalate "\n" ((ms.take l).enum.map (fun p => formatTaskLine p.1 p.2)) ∧
      strIncludes ("Found " ++ toString ms.length ++ " task(s):\n") "showing first" = false) := by
  constructor
  · intro h
    have hlen : (ms.take l).length = l := by
      rw [List.length_take]
      exact min_eq_left (le_of_lt h)
    constructor
    · simp only [formatTaskList, hlen]
      rw [if_pos h]
    · simp only [formatSearchResults, hlen]
      rw [if_pos h]
  · intro h
    have htake : ms.take l = ms := List.take_of_length_le h
    have hcond : ¬ (ms.length > (ms.take l).length) := by
      rw [htake]
      exact lt_irrefl _
    refine ⟨?_, ?_, list_header_no_showing_first ms.length⟩
    · simp only [formatTaskList]
      rw [if_neg hcond, htake]
    · simp only [formatSearchResults]
      rw [if_neg hcond, htake]

/-- C5 witness: two tasks with limit 1 (truncated header shows totals and
`showing first 1`) and with limit 5 (plain header, no `showing first`). -/
theorem c5_header_true_total_witness :
    formatTaskList (([{ id := "1", content := "A" }, { id := "2", content := "B" }] :
        List TodoistTask).take 1) 2 = "Found 2 task(s), showing first 1:\n\n1. A [ID: 1]" ∧
    formatTaskList (([{ id := "1", content := "A" }, { id := "2", content := "B" }] :
        List TodoistTask).take 5) 2 = "Found 2 task(s):\n\n1. A [ID: 1]\n2. B [ID: 2]" ∧
    strIncludes ("Found " ++ toString 2 ++ " task(s):\n") "showing first" = false := by
  refine ⟨?_, ?_, ?_⟩
  · have h := (c5_header_true_total
      [{ id := "1", content := "A" }, { id := "2", content := "B" }] 1 "" (by decide)).1
      (by decide)
    exact h.1.trans (by decide)
  · have h := (c5_header_true_total
      [{ id := "1", content := "A" }, { id := "2", content := "B" }] 5 "" (by decide)).2
      (by decide)
    exact h.1.trans (by decide)
  · exact ((c5_header_true_total
      [{ id := "1", content := "A" }, { id := "2", content := "B" }] 5 "" (by decide)).2
      (by decide)).2.2

/-! ## Claim C1 — create_task parent resolution by name -/

/-- C1: when `parent_task_name` is supplied (and no `parent_id`), create_task
first fetches all tasks and case-insensitively substring-matches their
content against the name.  Zero matches: error envelope, no create call.
Exactly one match: its id becomes the parent id of the posted create payload
and creation proceeds (a successful remote create yields a non-error
envelope).  More than one match: error envelope listing the first five
candidates plus, beyond five, a count of the remaining matches — and no
create call.  Task ids returned by the remote service are non-empty. -/
theorem c1_parent_name_resolution (allTasks : List TodoistTask)
    (create : CreateTaskParams → Except TodoistApiError TodoistTask)
    (args : CreateTaskArgs) (params : CreateTaskInput)
    (h : createTaskParse args = .ok params)
    (hname : truthyStr params.parent_task_name = true)
    (_hpid : params.parent_id = none)
    (hids : ∀ t ∈ allTasks, t.id ≠ "") :
    (allTasks.filter (fun t => strIncludes (toLowerCase t.content)
        (toLowerCase (params.parent_task_name.getD ""))) = [] →
      createTask allTasks create args =
        ({ content := [⟨"text", "No parent task found matching \"" ++
            params.parent_task_name.getD "" ++
            "\". Please check the task name or use a task ID instead."⟩],
           isError := true },
         [.getTasks {}])) ∧
    (∀ m, allTasks.filter (fun t => strIncludes (toLowerCase t.content)
        (toLowerCase (params.parent_task_name.getD ""))) = [m] →
      (createTask allTasks create args).2 =
        [.getTasks {}, .postCreateTask { buildCreateTaskParams params with parent_id := some m.id }] ∧
      (∀ t, create { buildCreateTaskParams params with parent_id := some m.id } = .ok t →
        (createTask allTasks create args).1.isError = false)) ∧
    (∀ ms, allTasks.filter (fun t => strIncludes (toLowerCase t.content)
        (toLowerCase (params.parent_task_name.getD ""))) = ms → 2 ≤ ms.length →
      createTask allTasks create args =
        ({ content := [⟨"text", "Found " ++ toString ms.length ++ " tasks matching \"" ++
            params.parent_task_name.getD "" ++ "\":\n\n" ++
            String.intercalate "\n" ((ms.take 5).enum.map (fun p =>
              toString (p.1 + 1) ++ ". \"" ++ p.2.content ++ "\" [ID: " ++ p.2.id ++ "]")) ++
            (if ms.length > 5 then "\n\n...and " ++ toString (ms.length - 5) ++ " more" else "") ++
            "\n\nPlease be more specific or use the task ID instead."⟩],
           isError := true },
         [.getTasks {}])) := by
  refine ⟨?_, ?_, ?_⟩
  · intro hm
    simp [createTask, h, hname, hm]
  · intro m hm
    have hmem : m ∈ allTasks := by
      have hmm : m ∈ allTasks.filter (fun t => strIncludes (toLowerCase t.content)
          (toLowerCase (params.parent_task_name.getD ""))) := by
        rw [hm]
        exact List.mem_singleton.mpr rfl
      exact List.mem_of_mem_filter hmm
    have htru : truthyStr (some m.id) = true := by
      simp [truthyStr, hids m hmem]
    constructor
    · rcases hc : create { buildCreateTaskParams params with parent_id := some m.id } with e | t <;>
        simp [createTask, h, hname, hm, finishCreateTask, htru, hc]
    · intro t ht
      simp [createTask, h, hname, hm, finishCreateTask, htru, ht]
  · intro ms hm h2
    rcases ms with _ | ⟨m1, _ | ⟨m2, rest⟩⟩
    · simp at h2
    · simp at h2
    · simp [createTask, h, hname, hm]

/-- C1 witness: a single case-insensitive match (`"release"` against
`"Release v1"`) makes task 7 the parent of the posted create payload and the
creation succeeds. -/
theorem c1_parent_name_resolution_witness :
    createTaskParse { content := some "Sub", parent_task_name := some "release" } =
      .ok { content := "Sub", parent_task_name := some "release" } ∧
    (createTask [{ id := "7", content := "Release v1" }, { id := "8", content := "Other" }]
        (fun p => .ok { id := "99", content := p.content, parent_id := p.parent_id })
        { content := some "Sub", parent_task_name := some "release" }).2 =
      [.getTasks {}, .postCreateTask { content := "Sub", parent_id := some "7" }] ∧
    (createTask [{ id := "7", content := "Release v1" }, { id := "8", content := "Other" }]
        (fun p => .ok { id := "99", content := p.content, parent_id := p.parent_id })
        { content := some "Sub", parent_task_name := some "release" }).1.isError = false := by
  have h := c1_parent_name_resolution
    [{ id := "7", content := "Release v1" }, { id := "8", content := "Other" }]
    (fun p => .ok { id := "99", content := p.content, parent_id := p.parent_id })
    { content := some "Sub", parent_task_name := some "release" }
    { content := "Sub", parent_task_name := some "release" }
    rfl (by decide) rfl (by decide)
  have h2 := h.2.1 { id := "7", content := "Release v1" } (by decide)
  exact ⟨rfl, h2.1.trans (by decide), h2.2 _ rfl⟩

end TodoistMcp
